import Mathlib

/-!
Verification of the oysterpack repository's message, codec, reqrep-metrics and
nng-server subsystems, shallowly embedded from the Rust sources.

- `Message` embeds `oysterpack-core/src/message/mod.rs` (envelopes, sequences, deadlines).
- `Codec` embeds `Encoding::encode` / `Encoding::decode` from the same file; the external
  serde and compression libraries are modelled by their functional contracts.
- `ReqRep` embeds the metric-registration logic of `ReqRep::start_service` from
  `oysterpack-trust/src/concurrent/messaging/reqrep.rs`.
- `Server` embeds the `ServerHandle` lifecycle of `oysterpack-trust-nng/src/reqrep/server.rs`
  as explicit state passing over a `World` holding the global registry and the set of
  running server controller tasks.
-/

namespace OysterPack

namespace Message

/-- Model of a sodiumoxide `box_::SecretKey`: the curve25519 scalar. -/
structure SecretKey where
  val : Nat
deriving DecidableEq, Repr

/-- Model of a sodiumoxide `box_::PublicKey`. -/
structure PublicKey where
  val : Nat
deriving DecidableEq, Repr

/-- Model of a sodiumoxide `box_::PrecomputedKey` (the Diffie-Hellman shared secret). -/
structure PrecomputedKey where
  val : Nat
deriving DecidableEq, Repr

/-- Model of deriving the public key from a secret key (curve25519 base-point scalar
multiplication, abstracted to the scalar itself so that the Diffie-Hellman law
`precompute (pub b) a = precompute (pub a) b` holds by commutativity). -/
def publicKey (sk : SecretKey) : PublicKey :=
  ⟨sk.val⟩

/-- Model of `box_::precompute(public_key, secret_key)`: the shared secret is the
product of the two scalars, commutative exactly as curve25519 scalar multiplication is. -/
def precompute (pk : PublicKey) (sk : SecretKey) : PrecomputedKey :=
  ⟨pk.val * sk.val⟩

/-- `Address(box_::PublicKey)` — addresses are identified by public keys. -/
structure Address where
  key : PublicKey
deriving DecidableEq, Repr

/-- `Address::precompute_sealing_key(&self, sender_private_key)` =
`box_::precompute(&self.0, sender_private_key)`. -/
def Address.precompute_sealing_key (a : Address) (sender_private_key : SecretKey) :
    PrecomputedKey :=
  precompute a.key sender_private_key

/-- `Address::precompute_opening_key(&self, recipient_private_key)` =
`box_::precompute(&self.0, recipient_private_key)`. -/
def Address.precompute_opening_key (a : Address) (recipient_private_key : SecretKey) :
    PrecomputedKey :=
  precompute a.key recipient_private_key

/-- Ideal-cipher model of the `EncryptedMessageBytes` produced by
`box_::seal_precomputed`: the ciphertext is opaque and records the key and the nonce it
was sealed under together with the plaintext, so that authenticated decryption succeeds
exactly for the matching key and nonce. -/
structure EncryptedMessageBytes where
  sealedKey : Nat
  sealedNonce : Nat
  plaintext : List Nat
deriving DecidableEq, Repr

/-- Model of `box_::seal_precomputed(msg, nonce, key)`. -/
def seal_precomputed (m : List Nat) (nonce : Nat) (k : PrecomputedKey) :
    EncryptedMessageBytes :=
  ⟨k.val, nonce, m⟩

/-- Model of `box_::open_precomputed(cipher, nonce, key)`: authenticated decryption
returns the plaintext for the matching key and nonce and fails otherwise. -/
def open_precomputed (c : EncryptedMessageBytes) (nonce : Nat) (k : PrecomputedKey) :
    Option (List Nat) :=
  if c.sealedKey = k.val ∧ c.sealedNonce = nonce then some c.plaintext else none

/-- `OpenEnvelope { sender, recipient, msg }`, with `MessageBytes` as a byte list. -/
structure OpenEnvelope where
  sender : Address
  recipient : Address
  msg : List Nat
deriving DecidableEq, Repr

/-- `SealedEnvelope { sender, recipient, nonce, msg }`. -/
structure SealedEnvelope where
  sender : Address
  recipient : Address
  nonce : Nat
  msg : EncryptedMessageBytes
deriving DecidableEq, Repr

/-- The error produced by `SealedEnvelope::open` on decryption failure:
`errors::SealedEnvelopeOpenFailed(&self)` (it carries envelope header data, never any
decrypted bytes). -/
inductive MessageError
  | SealedEnvelopeOpenFailed (sender recipient : Address)
deriving DecidableEq, Repr

/-- `OpenEnvelope::seal(self, key)`. The source draws a fresh nonce via
`box_::gen_nonce()`; the generated nonce is passed here as an explicit argument. -/
def OpenEnvelope.seal (e : OpenEnvelope) (key : PrecomputedKey) (nonce : Nat) :
    SealedEnvelope :=
  ⟨e.sender, e.recipient, nonce, seal_precomputed e.msg nonce key⟩

/-- `SealedEnvelope::open(self, key)`: on successful decryption the open envelope keeps
the sender and recipient; on failure the `SealedEnvelopeOpenFailed` error is returned. -/
def SealedEnvelope.openWith (s : SealedEnvelope) (key : PrecomputedKey) :
    Except MessageError OpenEnvelope :=
  match open_precomputed s.msg s.nonce key with
  | some m => .ok ⟨s.sender, s.recipient, m⟩
  | none => .error (.SealedEnvelopeOpenFailed s.sender s.recipient)

/-- `EncodedMessage { sender, recipient, msg }`, with the encoded
`Message<MessageBytes>` payload abstracted to its bytes. -/
structure EncodedMessage where
  sender : Address
  recipient : Address
  msg : List Nat
deriving DecidableEq, Repr

/-- `EncodedMessage::sender(&self)` — returns `&self.sender`. -/
def EncodedMessage.getSender (m : EncodedMessage) : Address :=
  m.sender

/-- `EncodedMessage::recipient(&self)` exactly as written in the source: it returns
`&self.sender`. -/
def EncodedMessage.getRecipient (m : EncodedMessage) : Address :=
  m.sender

/-- u64 modulus. -/
def U64_MOD : Nat := 2 ^ 64

/-- `Sequence` — `Strict(u64)` or `Loose(u64)`, the counter carried as a `Nat` below
`U64_MOD`. -/
inductive Sequence
  | Strict (n : Nat)
  | Loose (n : Nat)
deriving DecidableEq, Repr

/-- `Sequence::inc(self)` — `n + 1` in unchecked u64 arithmetic (release-mode Rust wraps
on overflow), hence the explicit `% U64_MOD`. -/
def Sequence.inc : Sequence → Sequence
  | .Strict n => .Strict ((n + 1) % U64_MOD)
  | .Loose n => .Loose ((n + 1) % U64_MOD)

/-- Lower bound of the chrono `DateTime` range, in milliseconds (models
`chrono::MIN_DATE`; the exact value is irrelevant to the theorems). -/
def DATETIME_MIN_MS : Int := -8334632851200000

/-- Upper bound of the chrono `DateTime` range, in milliseconds (models
`chrono::MAX_DATE`). -/
def DATETIME_MAX_MS : Int := 8210298412799999

/-- Model of `DateTime::checked_add_signed`: `none` when the sum leaves the
representable range. Timestamps are milliseconds since the epoch. -/
def checked_add_signed (t : Int) (d : Int) : Option Int :=
  if DATETIME_MIN_MS ≤ t + d ∧ t + d ≤ DATETIME_MAX_MS then some (t + d) else none

/-- The Rust cast `millis as i64` applied to a u64 value: two's-complement wrap-around
for values at or above `2 ^ 63`. -/
def u64_as_i64 (m : Nat) : Int :=
  if m < 2 ^ 63 then (m : Int) else (m : Int) - 2 ^ 64

/-- `Deadline` — `ProcessingTimeoutMillis(u64)` or `MessageTimeoutMillis(u64)`. -/
inductive Deadline
  | ProcessingTimeoutMillis (m : Nat)
  | MessageTimeoutMillis (m : Nat)
deriving DecidableEq, Repr

/-- `Deadline::duration(&self, starting_time)` with `Utc::now()` passed explicitly as
`now`; the returned `chrono::Duration` is modelled in milliseconds. -/
def Deadline.duration (d : Deadline) (starting_time now : Int) : Int :=
  match d with
  | .ProcessingTimeoutMillis millis => u64_as_i64 millis
  | .MessageTimeoutMillis millis =>
      if now ≤ starting_time then 0
      else
        match checked_add_signed starting_time (u64_as_i64 millis) with
        | some deadline => if deadline ≤ now then 0 else deadline - now
        | none => 0

end Message

namespace Codec

/-- `Compression` — the optional compression modes supported by `Encoding`. -/
inductive Compression
  | Deflate
  | Zlib
  | Gzip
  | Snappy
  | Lz4
deriving DecidableEq, Repr

/-- `Encoding` — serialization format with optional compression. -/
inductive Encoding
  | Bincode (c : Option Compression)
  | CBOR (c : Option Compression)
  | JSON (c : Option Compression)
deriving DecidableEq, Repr

/-- `errors::DeserializationError::new(self, err)` — produced by `Encoding::decode` both
for decompression failures and for deserialization failures. -/
inductive DeserializationError
  | deserializationFailed (e : Encoding)
deriving DecidableEq, Repr

/-- The external libraries used by `Encoding`: serde serializers (bincode, serde_cbor,
serde_json) and compressors (flate2 deflate/zlib/gzip, parity_snappy, lz4), modelled by
their functional contracts. Serialization and compression of in-memory data are total;
deserialization and decompression may fail on invalid input. -/
structure ExternalCodecs (α : Type) where
  bincodeSerialize : α → List Nat
  bincodeDeserialize : List Nat → Option α
  cborSerialize : α → List Nat
  cborDeserialize : List Nat → Option α
  jsonSerialize : α → List Nat
  jsonDeserialize : List Nat → Option α
  compressBytes : Compression → List Nat → List Nat
  decompressBytes : Compression → List Nat → Option (List Nat)

/-- The shared tail of `Encoding::encode`: `if let Some(compression) = compression`
then compress the serialized bytes, else return them as is. -/
def applyCompression (ext : ExternalCodecs α) : Option Compression → List Nat → List Nat
  | some c, bytes => ext.compressBytes c bytes
  | none, bytes => bytes

/-- `Encoding::encode(self, data)`: serialize per the format, then optionally compress. -/
def Encoding.encode (ext : ExternalCodecs α) (e : Encoding) (data : α) : List Nat :=
  match e with
  | .Bincode compression => applyCompression ext compression (ext.bincodeSerialize data)
  | .CBOR compression => applyCompression ext compression (ext.cborSerialize data)
  | .JSON compression => applyCompression ext compression (ext.jsonSerialize data)

/-- The per-format body of `Encoding::decode`: optionally decompress, then deserialize,
mapping both failure modes to `DeserializationError`. -/
def decodeWith (ext : ExternalCodecs α) (e : Encoding) (deser : List Nat → Option α) :
    Option Compression → List Nat → Except DeserializationError α
  | some c, data =>
      match ext.decompressBytes c data with
      | some d =>
          match deser d with
          | some v => .ok v
          | none => .error (.deserializationFailed e)
      | none => .error (.deserializationFailed e)
  | none, data =>
      match deser data with
      | some v => .ok v
      | none => .error (.deserializationFailed e)

/-- `Encoding::decode(self, data)`. -/
def Encoding.decode (ext : ExternalCodecs α) (e : Encoding) (data : List Nat) :
    Except DeserializationError α :=
  match e with
  | .Bincode compression => decodeWith ext e ext.bincodeDeserialize compression data
  | .CBOR compression => decodeWith ext e ext.cborDeserialize compression data
  | .JSON compression => decodeWith ext e ext.jsonDeserialize compression data

/-- A distinct tag per compression mode, used by the sample codecs. -/
def compressionTag : Compression → Nat
  | .Deflate => 0
  | .Zlib => 1
  | .Gzip => 2
  | .Snappy => 3
  | .Lz4 => 4

/-- Concrete codecs over `Nat` satisfying the external-library contracts: each
serializer is injective with a format tag, each compressor prepends its mode tag and
its inverse checks it. -/
def sampleCodecs : ExternalCodecs Nat :=
  ⟨fun n => [0, n],
   fun l => match l with
     | [0, n] => some n
     | _ => none,
   fun n => [1, n],
   fun l => match l with
     | [1, n] => some n
     | _ => none,
   fun n => [2, n],
   fun l => match l with
     | [2, n] => some n
     | _ => none,
   fun c bytes => compressionTag c :: bytes,
   fun c bytes => match bytes with
     | t :: rest => if t = compressionTag c then some rest else none
     | [] => none⟩

end Codec

namespace ReqRep

/-- `SERVICE_INSTANCE_COUNT_METRIC_ID` — MetricId of the ReqRep service instance count
gauge vector. -/
def SERVICE_INSTANCE_COUNT_METRIC_ID : Nat := 1872765971344832352273831154704953923

/-- `REQREPID_LABEL_ID` — the label whose value is the ReqRepId ULID. -/
def REQREPID_LABEL_ID : Nat := 1872766211119679891800112881745469011

/-- The metrics that `start_service` registers or instantiates, by descriptor:
the histogram timer registered under `MetricId(reqrep_id.0)`, the
`REQ_REP_SERVICE_INSTANCE_COUNT` gauge child labelled with the ReqRepId, and — for
comparison with the spec — a send counter labelled with the ReqRepId. -/
inductive Metric
  | histogramTimer (metricId : Nat)
  | serviceInstanceCountGauge (reqRepIdLabel : Nat)
  | sendCounter (reqRepIdLabel : Nat)
deriving DecidableEq, Repr

/-- `ReqRepServiceMetrics { timer, service_count }`, identified by the timer's MetricId
and the gauge child's label value. -/
structure ReqRepServiceMetrics where
  timerMetricId : Nat
  serviceCountLabel : Nat
deriving DecidableEq, Repr

/-- The metric-registration state: the `REQ_REP_METRICS` map keyed by ReqRepId, and the
set of metrics registered in the global prometheus registry. -/
structure MetricsState where
  reqRepMetrics : List (Nat × ReqRepServiceMetrics)
  registered : List Metric
deriving DecidableEq, Repr

/-- The initial state: `REQ_REP_METRICS` empty, nothing registered. -/
def MetricsState.empty : MetricsState := ⟨[], []⟩

/-- Lookup in the `REQ_REP_METRICS` map. -/
def lookupMetrics (id : Nat) : List (Nat × ReqRepServiceMetrics) → Option ReqRepServiceMetrics
  | [] => none
  | (k, m) :: rest => if k = id then some m else lookupMetrics id rest

/-- The `reqrep_service_metrics` closure evaluated by `ReqRep::start_service`: on the
first start for a ReqRepId it registers the histogram timer under
`MetricId(reqrep_id.0)` and creates the `REQ_REP_SERVICE_INSTANCE_COUNT` gauge child
labelled with the ReqRepId (`entry(...).or_insert_with(...)`); subsequent starts with
the same id reuse the cached `ReqRepServiceMetrics`. No send counter appears anywhere
in the module. -/
def startServiceRegisterMetrics (reqrep_id : Nat) (s : MetricsState) :
    ReqRepServiceMetrics × MetricsState :=
  match lookupMetrics reqrep_id s.reqRepMetrics with
  | some m => (m, s)
  | none =>
      let m : ReqRepServiceMetrics := ⟨reqrep_id, reqrep_id⟩
      (m, ⟨(reqrep_id, m) :: s.reqRepMetrics,
           Metric.serviceInstanceCountGauge reqrep_id ::
             Metric.histogramTimer reqrep_id :: s.registered⟩)

end ReqRep

namespace Server

/-- `ServerHandleError(String)` — the two failure messages `stop_async` can produce
when the executor cannot spawn the stop task. -/
inductive ServerHandleError
  | executorIsShutdown
  | executorFailedToSpawn
deriving DecidableEq, Repr

/-- `ServerHandle`, reduced to the fields the lifecycle operations inspect: its ULID
and whether it still holds its `server_command_channel` sender
(`Some`/`None` modelled as a `Bool`). -/
structure ServerHandle where
  id : Nat
  serverCommandChannel : Bool
deriving DecidableEq, Repr

/-- The process-wide state: the `SERVER_HANDLES` registry keyed by ULID, the set of
server controller tasks still in their command loop, the Stop commands delivered to
controller command channels, and whether the executor is shut down. -/
structure World where
  registry : List (Nat × ServerHandle)
  serverRunning : List Nat
  pendingStop : List Nat
  executorShutdown : Bool
deriving DecidableEq, Repr

/-- Lookup in the `SERVER_HANDLES` registry. -/
def lookupHandle (id : Nat) : List (Nat × ServerHandle) → Option ServerHandle
  | [] => none
  | (k, h) :: rest => if k = id then some h else lookupHandle id rest

/-- `SERVER_HANDLES.write().remove(&id)`. -/
def removeHandle (id : Nat) (l : List (Nat × ServerHandle)) : List (Nat × ServerHandle) :=
  l.filter (fun p => p.1 ≠ id)

/-- `ServerHandle::ping(&self)`: with no command channel the result is `false`;
otherwise the `Ping` round-trip succeeds exactly when the server controller task is
still servicing its command loop. -/
def ping (h : ServerHandle) (w : World) : Bool :=
  if h.serverCommandChannel then w.serverRunning.contains h.id else false

/-- `ServerHandle::stop_signalled(&self)` — `self.server_command_channel.is_none()`. -/
def stop_signalled (h : ServerHandle) : Bool :=
  !h.serverCommandChannel

/-- `ServerHandle::stop_async(&mut self)`: `take()` the command channel; if it was
present, spawn a task sending `ServerCommand::Stop` (failing if the executor is shut
down — note the channel is already taken at that point) and return `Ok(true)`;
otherwise return `Ok(false)` without touching anything. -/
def stop_async (h : ServerHandle) (w : World) :
    Except ServerHandleError Bool × ServerHandle × World :=
  if h.serverCommandChannel then
    let h2 : ServerHandle := ⟨h.id, false⟩
    if w.executorShutdown then (.error .executorIsShutdown, h2, w)
    else (.ok true, h2, ⟨w.registry, w.serverRunning, h.id :: w.pendingStop, w.executorShutdown⟩)
  else (.ok false, h, w)

/-- The server controller task handling `ServerCommand::Stop`: it breaks out of the
command loop, closes the listener and socket, and removes its ServerHandle from the
global registry (the last steps before the task — awaited by `await_shutdown` —
completes). -/
def controllerProcessStop (id : Nat) (w : World) : World :=
  ⟨removeHandle id w.registry,
   w.serverRunning.filter (fun i => i ≠ id),
   w.pendingStop.filter (fun i => i ≠ id),
   w.executorShutdown⟩

/-- The scenario "`stop_async()` has been called and `await_shutdown()` has returned":
`stop_async` delivers the Stop command, and `await_shutdown` blocks on the controller
task's `RemoteHandle`, so once it returns the controller has processed the Stop. -/
def stopAndAwait (h : ServerHandle) (w : World) : ServerHandle × World :=
  let r := stop_async h w
  (r.2.1, controllerProcessStop h.id r.2.2)

/-- `ServerHandle::get(id)`: look the handle up in the registry; if found, ping the
server — on success return the handle, on failure unregister it and return `None`. -/
def ServerHandle.get (id : Nat) (w : World) : Option ServerHandle × World :=
  match lookupHandle id w.registry with
  | some server_handle =>
      if ping server_handle w then (some server_handle, w)
      else (none, ⟨removeHandle id w.registry, w.serverRunning, w.pendingStop, w.executorShutdown⟩)
  | none => (none, w)

/-- A freshly spawned server's handle, used by the concrete witnesses. -/
def sampleHandle : ServerHandle := ⟨1, true⟩

/-- A world in which `sampleHandle`'s server is registered and running. -/
def sampleWorld : World := ⟨[(1, sampleHandle)], [1], [], false⟩

/-- A world in which `sampleHandle` is still registered but its controller task has
died without unregistering (e.g. the process killed the executor's thread pool). -/
def sampleDeadWorld : World := ⟨[(1, sampleHandle)], [], [], false⟩

end Server

/-- Claim C1 (code-bug evidence): for the `EncodedMessage` built with sender address 1
and recipient address 2, the `recipient()` getter returns the sender address 1 — not
the recipient address 2 the claim requires — while `sender()` correctly returns 1. -/
theorem encodedMessage_recipient_returns_sender :
    Message.EncodedMessage.getRecipient ⟨⟨⟨1⟩⟩, ⟨⟨2⟩⟩, []⟩ = ⟨⟨1⟩⟩ ∧
    Message.EncodedMessage.getSender ⟨⟨⟨1⟩⟩, ⟨⟨2⟩⟩, []⟩ = ⟨⟨1⟩⟩ ∧
    (⟨⟨1⟩⟩ : Message.Address) ≠ ⟨⟨2⟩⟩ := by
  exact ⟨rfl, rfl, by decide⟩

/-- Claim C2 (code-bug evidence): starting a service for ReqRepId 1 from the initial
metrics state registers exactly the process-timer histogram and the
service-instance-count gauge labelled by the ReqRepId — no send counter is registered —
and a second start for the same ReqRepId registers nothing further. -/
theorem start_service_registers_two_metrics_no_send_counter :
    (ReqRep.Metric.histogramTimer 1 ∈
        (ReqRep.startServiceRegisterMetrics 1 ReqRep.MetricsState.empty).2.registered ∧
      ReqRep.Metric.serviceInstanceCountGauge 1 ∈
        (ReqRep.startServiceRegisterMetrics 1 ReqRep.MetricsState.empty).2.registered ∧
      ∀ lbl, ReqRep.Metric.sendCounter lbl ∉
        (ReqRep.startServiceRegisterMetrics 1 ReqRep.MetricsState.empty).2.registered) ∧
    (ReqRep.startServiceRegisterMetrics 1
        (ReqRep.startServiceRegisterMetrics 1 ReqRep.MetricsState.empty).2).2 =
      (ReqRep.startServiceRegisterMetrics 1 ReqRep.MetricsState.empty).2 := by
  refine ⟨⟨by decide, by decide, fun lbl => ?_⟩, by decide⟩
  simp [ReqRep.startServiceRegisterMetrics, ReqRep.MetricsState.empty, ReqRep.lookupMetrics]

/-- Claim C3: sealing an open envelope under the sender-derived precomputed key
(`recipient_address.precompute_sealing_key(sender_sk)`) and opening the result under
the recipient-derived key (`sender_address.precompute_opening_key(recipient_sk)`)
returns the original envelope — same sender, recipient and message bytes — for every
envelope, key pair and nonce. -/
theorem seal_open_roundtrip (e : Message.OpenEnvelope)
    (senderSk recipientSk : Message.SecretKey) (nonce : Nat) :
    (e.seal (Message.Address.precompute_sealing_key ⟨Message.publicKey recipientSk⟩ senderSk)
        nonce).openWith
      (Message.Address.precompute_opening_key ⟨Message.publicKey senderSk⟩ recipientSk) =
      .ok e := by
  simp [Message.OpenEnvelope.seal, Message.SealedEnvelope.openWith,
    Message.Address.precompute_sealing_key, Message.Address.precompute_opening_key,
    Message.precompute, Message.publicKey, Message.seal_precomputed,
    Message.open_precomputed, Nat.mul_comm]

/-- Claim C8: opening a sealed envelope with a precomputed key different from the one
it was sealed under fails with `SealedEnvelopeOpenFailed`, an error value that carries
no decrypted bytes. -/
theorem open_with_wrong_key_fails (s : Message.SealedEnvelope) (k : Message.PrecomputedKey)
    (h : s.msg.sealedKey ≠ k.val) :
    s.openWith k = .error (.SealedEnvelopeOpenFailed s.sender s.recipient) := by
  simp [Message.SealedEnvelope.openWith, Message.open_precomputed, h]

/-- Witness for C8 at the concrete sealed envelope sealed under key 6 and the
non-matching key 5. -/
theorem open_with_wrong_key_fails_witness :
    Message.SealedEnvelope.openWith ⟨⟨⟨1⟩⟩, ⟨⟨2⟩⟩, 7, ⟨6, 7, [9, 9]⟩⟩ ⟨5⟩ =
      .error (.SealedEnvelopeOpenFailed ⟨⟨1⟩⟩ ⟨⟨2⟩⟩) :=
  open_with_wrong_key_fails ⟨⟨⟨1⟩⟩, ⟨⟨2⟩⟩, 7, ⟨6, 7, [9, 9]⟩⟩ ⟨5⟩ (by decide)

/-- Claim C9: `Sequence::inc` maps `Strict(n)` to `Strict(n + 1)` and `Loose(n)` to
`Loose(n + 1)` whenever `n + 1` fits in a u64, and at the boundary `n = u64::MAX` the
unchecked u64 increment wraps to 0 for both variants. -/
theorem sequence_inc_adds_one (n : Nat) (h : n + 1 < Message.U64_MOD) :
    (Message.Sequence.Strict n).inc = .Strict (n + 1) ∧
    (Message.Sequence.Loose n).inc = .Loose (n + 1) ∧
    (Message.Sequence.Strict (Message.U64_MOD - 1)).inc = .Strict 0 ∧
    (Message.Sequence.Loose (Message.U64_MOD - 1)).inc = .Loose 0 := by
  refine ⟨?_, ?_, by decide, by decide⟩ <;> simp [Message.Sequence.inc, Nat.mod_eq_of_lt h]

/-- Witness for C9 at `n = 41`. -/
theorem sequence_inc_adds_one_witness :
    (Message.Sequence.Strict 41).inc = .Strict 42 ∧
    (Message.Sequence.Loose 41).inc = .Loose 42 ∧
    (Message.Sequence.Strict (Message.U64_MOD - 1)).inc = .Strict 0 ∧
    (Message.Sequence.Loose (Message.U64_MOD - 1)).inc = .Loose 0 :=
  sequence_inc_adds_one 41 (by decide)

/-- Claim C7 counterexample: for `m = 2 ^ 63` the claim's equation
`duration(ProcessingTimeoutMillis(m), T) = m` milliseconds fails — the source's
`*millis as i64` cast wraps `2 ^ 63` to `-2 ^ 63`, so the duration is negative. -/
theorem deadline_processing_duration_wraps :
    Message.Deadline.duration (.ProcessingTimeoutMillis (2 ^ 63)) 0 0 ≠ ((2 : Int) ^ 63) := by
  decide

/-- Claim C7 as amended (restricted to `m < 2 ^ 63`, where the u64-to-i64 cast is the
identity): the Processing duration is exactly `m` milliseconds regardless of the
starting time, and the MessageTimeout duration is zero when `T ≥ now`, when `T + m`
overflows the datetime range, or when `T + m ≤ now`, and `(T + m) - now` otherwise. -/
theorem deadline_duration_spec (m : Nat) (T now : Int) (h : m < 2 ^ 63) :
    Message.Deadline.duration (.ProcessingTimeoutMillis m) T now = (m : Int) ∧
    Message.Deadline.duration (.MessageTimeoutMillis m) T now =
      if T ≥ now ∨ Message.checked_add_signed T (m : Int) = none ∨ T + (m : Int) ≤ now then 0
      else T + (m : Int) - now := by
  have hcast : Message.u64_as_i64 m = (m : Int) := by
    simp only [Message.u64_as_i64]
    rw [if_pos h]
  constructor
  · simp [Message.Deadline.duration, hcast]
  · simp only [Message.Deadline.duration, hcast]
    rcases hadd : Message.checked_add_signed T (m : Int) with _ | d
    · simp only [hadd]
      simp
    · have hd : d = T + (m : Int) := by
        unfold Message.checked_add_signed at hadd
        split_ifs at hadd with hc
        exact (Option.some.inj hadd).symm
      subst hd
      simp only [hadd]
      by_cases h1 : now ≤ T
      · simp [h1, ge_iff_le]
      · by_cases h2 : T + (m : Int) ≤ now
        · simp [h1, h2]
        · simp [h1, h2]

/-- Witness for C7's amended theorem at `m = 5`, `T = 0`, `now = 3`: the Processing
duration is 5 ms and the MessageTimeout duration is `(0 + 5) - 3 = 2` ms. -/
theorem deadline_duration_spec_witness :
    Message.Deadline.duration (.ProcessingTimeoutMillis 5) 0 3 = (5 : Int) ∧
    Message.Deadline.duration (.MessageTimeoutMillis 5) 0 3 = (2 : Int) := by
  have h := deadline_duration_spec 5 0 3 (by decide)
  exact ⟨h.1, h.2.trans (by decide)⟩

/-- Claim C4: for every family of external codecs satisfying the serde and compression
library round-trip contracts, every `Encoding` variant (Bincode, CBOR, JSON, each with
any optional compression) and every value, `decode(E, encode(E, v)) = Ok v`. -/
theorem encoding_decode_encode_roundtrip {α : Type} (ext : Codec.ExternalCodecs α)
    (hb : ∀ v, ext.bincodeDeserialize (ext.bincodeSerialize v) = some v)
    (hc : ∀ v, ext.cborDeserialize (ext.cborSerialize v) = some v)
    (hj : ∀ v, ext.jsonDeserialize (ext.jsonSerialize v) = some v)
    (hz : ∀ c b, ext.decompressBytes c (ext.compressBytes c b) = some b)
    (E : Codec.Encoding) (v : α) :
    E.decode ext (E.encode ext v) = .ok v := by
  cases E <;> rename_i comp <;> cases comp <;>
    simp [Codec.Encoding.encode, Codec.Encoding.decode, Codec.decodeWith,
      Codec.applyCompression, hb, hc, hj, hz]

/-- Witness for C4: the concrete sample codecs satisfy the library contracts, and the
round-trip holds at `Encoding.JSON (some Snappy)` and value 42. -/
theorem encoding_decode_encode_roundtrip_witness :
    Codec.Encoding.decode Codec.sampleCodecs (.JSON (some .Snappy))
      (Codec.Encoding.encode Codec.sampleCodecs (.JSON (some .Snappy)) 42) = .ok 42 :=
  encoding_decode_encode_roundtrip Codec.sampleCodecs (fun _ => rfl) (fun _ => rfl)
    (fun _ => rfl) (fun c _ => by cases c <;> rfl) (.JSON (some .Snappy)) 42

/-- Claim C5: once `stop_async` has been called on a handle and `await_shutdown` has
returned, `ping` returns false both through the stopping handle and through any clone
of it (same ULID), and the server's ULID is no longer in the global registry. -/
theorem stop_await_ping_false_and_unregistered (w : Server.World)
    (h hclone : Server.ServerHandle) (hid : hclone.id = h.id)
    (hexec : w.executorShutdown = false) :
    Server.ping (Server.stopAndAwait h w).1 (Server.stopAndAwait h w).2 = false ∧
    Server.ping hclone (Server.stopAndAwait h w).2 = false ∧
    Server.lookupHandle h.id (Server.stopAndAwait h w).2.registry = none := by
  have hrun : ∀ l : List Nat, (l.filter (fun i => i ≠ h.id)).contains h.id = false := by
    intro l
    simp only [List.contains, List.elem_eq_mem, decide_eq_false_iff_not]
    simp [List.mem_filter]
  have hreg : ∀ l : List (Nat × Server.ServerHandle),
      Server.lookupHandle h.id (Server.removeHandle h.id l) = none := by
    intro l
    induction l with
    | nil => rfl
    | cons p rest ih =>
        by_cases hp : p.1 = h.id
        · simpa [Server.removeHandle, hp] using ih
        · simpa [Server.removeHandle, Server.lookupHandle, hp] using ih
  refine ⟨?_, ?_, ?_⟩
  · by_cases hch : h.serverCommandChannel <;>
      simp [Server.stopAndAwait, Server.stop_async, Server.controllerProcessStop,
        Server.ping, hch, hexec, hrun]
  · by_cases hch : h.serverCommandChannel <;>
      simp [Server.stopAndAwait, Server.stop_async, Server.controllerProcessStop,
        Server.ping, hch, hexec, hid, hrun]
  · by_cases hch : h.serverCommandChannel <;>
      simp [Server.stopAndAwait, Server.stop_async, Server.controllerProcessStop,
        hch, hexec, hreg]

/-- Witness for C5 at the sample running server and a clone of its handle. -/
theorem stop_await_ping_false_and_unregistered_witness :
    Server.ping (Server.stopAndAwait Server.sampleHandle Server.sampleWorld).1
        (Server.stopAndAwait Server.sampleHandle Server.sampleWorld).2 = false ∧
    Server.ping Server.sampleHandle
        (Server.stopAndAwait Server.sampleHandle Server.sampleWorld).2 = false ∧
    Server.lookupHandle Server.sampleHandle.id
        (Server.stopAndAwait Server.sampleHandle Server.sampleWorld).2.registry = none :=
  stop_await_ping_false_and_unregistered Server.sampleWorld Server.sampleHandle
    Server.sampleHandle rfl rfl

/-- Claim C6: on a handle still holding its command channel, and with a working
executor, the first `stop_async` returns `Ok(true)`, after it `stop_signalled` is true,
and a second `stop_async` on the resulting handle is a no-op returning `Ok(false)`. -/
theorem stop_async_idempotent (h : Server.ServerHandle) (w : Server.World)
    (hch : h.serverCommandChannel = true) (hexec : w.executorShutdown = false) :
    (Server.stop_async h w).1 = .ok true ∧
    Server.stop_signalled (Server.stop_async h w).2.1 = true ∧
    (Server.stop_async (Server.stop_async h w).2.1 (Server.stop_async h w).2.2).1 =
      .ok false ∧
    (Server.stop_async (Server.stop_async h w).2.1 (Server.stop_async h w).2.2).2.1 =
      (Server.stop_async h w).2.1 ∧
    (Server.stop_async (Server.stop_async h w).2.1 (Server.stop_async h w).2.2).2.2 =
      (Server.stop_async h w).2.2 := by
  simp [Server.stop_async, Server.stop_signalled, hch, hexec]

/-- Witness for C6 at the sample running server. -/
theorem stop_async_idempotent_witness :
    (Server.stop_async Server.sampleHandle Server.sampleWorld).1 = .ok true ∧
    Server.stop_signalled (Server.stop_async Server.sampleHandle Server.sampleWorld).2.1 =
      true ∧
    (Server.stop_async (Server.stop_async Server.sampleHandle Server.sampleWorld).2.1
        (Server.stop_async Server.sampleHandle Server.sampleWorld).2.2).1 = .ok false ∧
    (Server.stop_async (Server.stop_async Server.sampleHandle Server.sampleWorld).2.1
        (Server.stop_async Server.sampleHandle Server.sampleWorld).2.2).2.1 =
      (Server.stop_async Server.sampleHandle Server.sampleWorld).2.1 ∧
    (Server.stop_async (Server.stop_async Server.sampleHandle Server.sampleWorld).2.1
        (Server.stop_async Server.sampleHandle Server.sampleWorld).2.2).2.2 =
      (Server.stop_async Server.sampleHandle Server.sampleWorld).2.2 :=
  stop_async_idempotent Server.sampleHandle Server.sampleWorld rfl rfl

/-- Claim C10: `ServerHandle::get` returns a handle only when it is registered and its
server answered the ping at lookup time; when the registered handle's ping fails, `get`
returns none and unregisters the ULID. -/
theorem get_returns_only_pinging_handles (id : Nat) (w : Server.World) :
    (∀ h, (Server.ServerHandle.get id w).1 = some h →
      Server.lookupHandle id w.registry = some h ∧ Server.ping h w = true) ∧
    (∀ h, Server.lookupHandle id w.registry = some h → Server.ping h w = false →
      (Server.ServerHandle.get id w).1 = none ∧
      Server.lookupHandle id (Server.ServerHandle.get id w).2.registry = none) := by
  have hreg : ∀ l : List (Nat × Server.ServerHandle),
      Server.lookupHandle id (Server.removeHandle id l) = none := by
    intro l
    induction l with
    | nil => rfl
    | cons p rest ih =>
        by_cases hp : p.1 = id
        · simpa [Server.removeHandle, hp] using ih
        · simpa [Server.removeHandle, Server.lookupHandle, hp] using ih
  constructor
  · intro h hget
    unfold Server.ServerHandle.get at hget
    rcases hl : Server.lookupHandle id w.registry with _ | h0
    · rw [hl] at hget
      exact absurd hget (by simp)
    · rw [hl] at hget
      by_cases hping : Server.ping h0 w = true
      · simp only [hping, if_true] at hget
        simp only [Option.some.injEq] at hget
        subst hget
        exact ⟨rfl, hping⟩
      · simp [hping] at hget
  · intro h hl hping
    have hget : Server.ServerHandle.get id w =
        (none, ⟨Server.removeHandle id w.registry, w.serverRunning, w.pendingStop,
          w.executorShutdown⟩) := by
      unfold Server.ServerHandle.get
      rw [hl]
      simp [hping]
    rw [hget]
    exact ⟨rfl, hreg w.registry⟩

/-- Witness for C10: at the sample running world `get` returns the registered pinging
handle, and at the dead world (controller task gone) it returns none and unregisters
the ULID. -/
theorem get_returns_only_pinging_handles_witness :
    (Server.lookupHandle 1 Server.sampleWorld.registry = some Server.sampleHandle ∧
      Server.ping Server.sampleHandle Server.sampleWorld = true) ∧
    ((Server.ServerHandle.get 1 Server.sampleDeadWorld).1 = none ∧
      Server.lookupHandle 1 (Server.ServerHandle.get 1 Server.sampleDeadWorld).2.registry =
        none) :=
  ⟨(get_returns_only_pinging_handles 1 Server.sampleWorld).1 Server.sampleHandle rfl,
   (get_returns_only_pinging_handles 1 Server.sampleDeadWorld).2 Server.sampleHandle rfl rfl⟩

end OysterPack
